import Mathlib

/-!
Shallow embedding of the minemeld node runtime (`src/minemeld/ft/base.py`)
and fabric adapter (`src/minemeld/fabric.py`).

Attribute values of indicator records are opaque to the runtime; they are
modelled as strings.  Python dictionaries are modelled as association lists
with distinct keys maintained by `dinsert`/`derase`.  Side effects that the
claims observe (subclass hook invocations, publications on the output
channel, checkpoint-file writes) are collected in an explicit event list.
A method that raises `AssertionError` returns `some msg` in the error
component together with the node state at the moment of the raise, so that
atomicity of failed calls is expressible.
-/

namespace Minemeld

/-- Modelled from the spec: the `ft_states` module is not under `src/`;
the spec (§3, §4.4) lists the node states READY, CONNECTED, INIT,
REBUILDING, RESET, STARTED, CHECKPOINT, IDLE, STOPPED. -/
inductive FTState where
  | READY
  | CONNECTED
  | INIT
  | REBUILDING
  | RESET
  | STARTED
  | CHECKPOINT
  | IDLE
  | STOPPED
deriving DecidableEq, Repr

/-- An indicator value: a Python dict of attribute name to attribute value,
modelled as an association list (attribute values opaque, as strings). -/
abbrev Record := List (String × String)

/-- Python `d[k] = v` on a dict: replaces any existing binding of `k`. -/
def dinsert (k v : String) (d : Record) : Record :=
  (k, v) :: d.filter (fun p => p.1 != k)

/-- Python `d.pop(k)` (the removal effect). -/
def derase (k : String) (d : Record) : Record :=
  d.filter (fun p => p.1 != k)

/-- Python `k in d` on a dict. -/
def dmem (k : String) (d : Record) : Bool :=
  d.any (fun p => p.1 == k)

/-- A filter of `_Filters`: conditions (an implicit conjunction, each a
pure boolean evaluation over the record — `condition.Condition.eval` is
modelled from the spec §4.1 as an abstract predicate, the `condition`
module not being under `src/`) and an ordered action list (strings;
`accept` and `drop` are the terminal ones). -/
structure Filter where
  conditions : List (Record → Bool)
  actions : List String

/-- The first terminal action of an action list: the inner `for a in
f['actions']` loop of `_Filters.apply` returns at the first `accept` or
`drop` and falls through otherwise. -/
def firstTerminal : List String → Option String
  | [] => none
  | a :: rest => if a = "accept" ∨ a = "drop" then some a else firstTerminal rest

/-- The result `_Filters.apply` produces when a filter accepts (or no
filter matches — default accept): `(indicator, None)` when the input had
no value, else `(indicator, d)` with the synthetic `_indicator` popped. -/
def acceptResult (indicator : String) (value : Option Record) (d : Record) :
    Option String × Option Record :=
  match value with
  | none => (some indicator, none)
  | some _ => (some indicator, some (derase "_indicator" d))

/-- The `for f in self.filters` loop of `_Filters.apply`. -/
def filtersGo (indicator : String) (value : Option Record) (d : Record) :
    List Filter → Option String × Option Record
  | [] => acceptResult indicator value d
  | f :: rest =>
    if f.conditions.all (fun c => c d) then
      if firstTerminal f.actions = some "accept" then
        acceptResult indicator value d
      else if firstTerminal f.actions = some "drop" then
        (none, none)
      else
        filtersGo indicator value d rest
    else
      filtersGo indicator value d rest

/-- `_Filters.apply(indicator, value)`: evaluate the record (a defensive
copy of `value`, or an empty dict when `value` is `None`) augmented with
the synthetic `_indicator` key against each filter in order. -/
def filtersApply (filters : List Filter) (indicator : String)
    (value : Option Record) : Option String × Option Record :=
  let d := dinsert "_indicator" indicator (value.getD [])
  filtersGo indicator value d filters

/-- Python `k.startswith("_")`: the first character of `k` is an
underscore. -/
def keyUnderscore (s : String) : Bool :=
  match s.data with
  | [] => false
  | c :: _ => c = '_'

/-- The `_`-key stripping loop of `BaseFT.update`/`BaseFT.withdraw`:
every key that starts with an underscore is popped from the value. -/
def stripKeys (v : Record) : Record :=
  v.filter (fun p => ! keyUnderscore p.1)

/-- Observable side effects of node methods: subclass hook invocations
(`filtered_update`/`filtered_withdraw`), publications on the output
channel, and checkpoint-file writes (`create_checkpoint`). -/
inductive Event where
  | filteredUpdate (source indicator : String) (value : Option Record)
  | filteredWithdraw (source indicator : String) (value : Option Record)
  | publishUpdate (indicator : String) (value : Option Record)
  | publishWithdraw (indicator : String) (value : Option Record)
  | publishCheckpoint (value : String)
  | fileWrite (filename contents : String)
deriving DecidableEq, Repr

/-- The state of a `BaseFT` node: its name, lifecycle state, input list,
inputs-checkpoint map, last checkpoint marker, filter chains and whether
an output channel was configured at connect time. -/
structure Node where
  name : String
  state : FTState
  inputs : List String
  inputs_checkpoint : Record
  last_checkpoint : Option String
  infilters : List Filter
  outfilters : List Filter
  hasOutput : Bool

/-- `BaseFT.emit_checkpoint(value)`: publishes the checkpoint payload on
the output channel when one exists, otherwise does nothing. -/
def emitCheckpointEvents (n : Node) (value : String) : List Event :=
  if n.hasOutput then [Event.publishCheckpoint value] else []

/-- `BaseFT.update(source, indicator, value)`.  Returns the node state
after the call, the observable events, and `some msg` when the call
raises `AssertionError msg`. -/
def Node.update (n : Node) (source indicator : String) (value : Option Record) :
    Node × List Event × Option String :=
  if ¬ (n.state = FTState.STARTED ∨ n.state = FTState.CHECKPOINT) then
    (n, [], none)
  else if dmem source n.inputs_checkpoint then
    (n, [], some "update recevied from checkpointed source")
  else
    match filtersApply n.infilters indicator (value.map stripKeys) with
    | (none, _) =>
      (n, [Event.filteredWithdraw source indicator (value.map stripKeys)], none)
    | (some fltindicator, fltvalue) =>
      (n, [Event.filteredUpdate source fltindicator fltvalue], none)

/-- `BaseFT.withdraw(source, indicator, value)`. -/
def Node.withdraw (n : Node) (source indicator : String) (value : Option Record) :
    Node × List Event × Option String :=
  if ¬ (n.state = FTState.STARTED ∨ n.state = FTState.CHECKPOINT) then
    (n, [], none)
  else if dmem source n.inputs_checkpoint then
    (n, [], some "withdraw recevied from checkpointed source")
  else
    (n, [Event.filteredWithdraw source indicator (value.map stripKeys)], none)

/-- `BaseFT.checkpoint(source, value)`. -/
def Node.checkpoint (n : Node) (source value : String) :
    Node × List Event × Option String :=
  if ¬ (n.state = FTState.STARTED ∨ n.state = FTState.CHECKPOINT) then
    (n, [], some "checkpoint received with state not STARTED or CHECKPOINT")
  else if n.inputs_checkpoint.any (fun p => p.2 ≠ value) then
    (n, [], some "different checkpoint value received")
  else if (dinsert source value n.inputs_checkpoint).length ≠ n.inputs.length then
    ({ n with state := FTState.CHECKPOINT,
              inputs_checkpoint := dinsert source value n.inputs_checkpoint },
     [], none)
  else
    ({ n with state := FTState.IDLE,
              inputs_checkpoint := dinsert source value n.inputs_checkpoint,
              last_checkpoint := some value },
     Event.fileWrite (n.name ++ ".chkp") value :: emitCheckpointEvents n value,
     none)

/-- `BaseFT.start()`. -/
def Node.start (n : Node) : Node × Option String :=
  if n.state = FTState.INIT then
    ({ n with state := FTState.STARTED }, none)
  else
    (n, some "start on not INIT FT")

/-- `BaseFT.stop()`. -/
def Node.stop (n : Node) : Node × Option String :=
  if n.state = FTState.IDLE ∨ n.state = FTState.STARTED then
    ({ n with state := FTState.STOPPED }, none)
  else
    (n, some "stop on not IDLE or STARTED FT")

/-- `BaseFT.connect(inputs, output)`: requires READY; records the inputs,
resets the inputs-checkpoint map to empty, acquires an output channel when
`output` is truthy and moves to CONNECTED.  (Channel requests to the
chassis carry no node-visible state and are not modelled.) -/
def Node.connect (n : Node) (inputs : List String) (output : Bool) :
    Node × Option String :=
  if n.state = FTState.READY then
    ({ n with inputs := inputs, inputs_checkpoint := [],
              hasOutput := output, state := FTState.CONNECTED }, none)
  else
    (n, some "connect called in non ready FT")

/-- `BaseFT.mgmtbus_initialize()`. -/
def Node.mgmtbus_initialize (n : Node) : Node × String :=
  ({ n with state := FTState.INIT }, "OK")

/-- `BaseFT.mgmtbus_rebuild()`: sets REBUILDING, invokes the `rebuild`
hook (`pass` in `BaseFT`), then sets INIT. -/
def Node.mgmtbus_rebuild (n : Node) : Node × String :=
  let n := { n with state := FTState.REBUILDING }
  ({ n with state := FTState.INIT }, "OK")

/-- `BaseFT.mgmtbus_reset()`: sets RESET, invokes the `reset` hook
(`pass` in `BaseFT`), then sets INIT. -/
def Node.mgmtbus_reset (n : Node) : Node × String :=
  let n := { n with state := FTState.RESET }
  ({ n with state := FTState.INIT }, "OK")

/-- `BaseFT.mgmtbus_checkpoint(value)`. -/
def Node.mgmtbus_checkpoint (n : Node) (value : String) :
    Node × List Event × String :=
  if n.inputs.length ≠ 0 then
    (n, [], "ignored")
  else
    ({ n with state := FTState.IDLE, last_checkpoint := some value },
     Event.fileWrite (n.name ++ ".chkp") value :: emitCheckpointEvents n value,
     "OK")

/-- The result of `BaseFT.mgmtbus_state_info()`. -/
structure StateInfo where
  checkpoint : Option String
  state : FTState
  is_source : Bool
deriving DecidableEq, Repr

/-- `BaseFT.mgmtbus_state_info()`. -/
def Node.mgmtbus_state_info (n : Node) : StateInfo :=
  { checkpoint := n.last_checkpoint
    state := n.state
    is_source := n.inputs.length = 0 }

/-! ### The checkpoint store (files on disk) -/

/-- The file system, as a partial map from file name to contents. -/
def FS : Type := String → Option String

/-- Python `str.strip()` whitespace characters. -/
def isPySpace (c : Char) : Bool :=
  c = ' ' ∨ c = '\t' ∨ c = '\n' ∨ c = '\r' ∨ c = '\x0b' ∨ c = '\x0c'

/-- Python `str.strip()`: drop leading and trailing whitespace. -/
def pyStrip (s : String) : String :=
  ⟨(((s.data.dropWhile isPySpace).reverse.dropWhile isPySpace).reverse)⟩

/-- `BaseFT.create_checkpoint(value)`: write `value` to `<name>.chkp`. -/
def create_checkpoint (name value : String) (fs : FS) : FS :=
  fun f => if f = name ++ ".chkp" then some value else fs f

/-- `BaseFT.read_checkpoint()`: `last_checkpoint` becomes the stripped
contents of `<name>.chkp` and the file is removed; a missing file
(`IOError`) leaves `last_checkpoint` as `None`.  Returns the new
`last_checkpoint` and the new file system. -/
def read_checkpoint (name : String) (fs : FS) : Option String × FS :=
  match fs (name ++ ".chkp") with
  | some c => (some (pyStrip c), fun f => if f = name ++ ".chkp" then none else fs f)
  | none => (none, fs)

/-- `BaseFT.__init__` as far as node-visible state goes: empty inputs, no
output, run `read_checkpoint`, state READY.  (`inputs_checkpoint` is only
assigned in `connect`; it starts empty here.) -/
def Node.construct (name : String) (infilters outfilters : List Filter)
    (fs : FS) : Node × FS :=
  let r := read_checkpoint name fs
  ({ name := name
     state := FTState.READY
     inputs := []
     inputs_checkpoint := []
     last_checkpoint := r.1
     infilters := infilters
     outfilters := outfilters
     hasOutput := false }, r.2)

/-! ### The fabric adapter -/

/-- `Fabric.send_rpc(sftname, dftname, method, params, block, timeout)`
from `src/minemeld/fabric.py`.  The underlying transport
`self.comm.send_rpc` is abstracted as the function argument `comm`; the
method sets `params['source'] = sftname`, calls the transport, and — the
body having no `return` statement — returns Python `None`.  The result is
`(returned value, params after mutation, value the transport produced)`. -/
def Fabric.send_rpc (comm : String → String → Record → String)
    (sftname dftname method : String) (params : Record) :
    Option String × Record × String :=
  let params := dinsert "source" sftname params
  let transportResult := comm dftname method params
  (none, params, transportResult)

/-- Modelled from the spec: the chassis module is not under `src/`; per
spec §6 `chassis.send_rpc(src, dst, method, params, block, timeout)`
forwards the RPC over the fabric, i.e. delegates to `Fabric.send_rpc`,
and hands its return value back.  `BaseFT.do_rpc` returns
`self.chassis.send_rpc(self.name, dftname, method, kwargs, ...)`. -/
def Node.do_rpc (n : Node) (comm : String → String → Record → String)
    (dftname method : String) (kwargs : Record) : Option String :=
  (Fabric.send_rpc comm n.name dftname method kwargs).1

/-! ### Helper lemmas -/

/-- Every entry surviving the `_`-key stripping has a key that does not
start with an underscore. -/
theorem stripKeys_no_underscore (v : Record) :
    ∀ p ∈ stripKeys v, keyUnderscore p.1 = false := by
  intro p hp
  unfold stripKeys at hp
  have h := List.of_mem_filter hp
  simpa using h

/-- Entries of the record after stripping an optional value. -/
theorem stripKeysOpt_no_underscore (v : Option Record) :
    ∀ p ∈ (v.map stripKeys).getD [], keyUnderscore p.1 = false := by
  cases v with
  | none => intro p hp; cases hp
  | some vv => intro p hp; exact stripKeys_no_underscore vv p (by simpa using hp)

/-- The value component `filtersGo` produces is either `none` or the
working record with the synthetic `_indicator` key popped. -/
theorem filtersGo_snd (fs : List Filter) (i : String) (v : Option Record)
    (d : Record) :
    (filtersGo i v d fs).2 = none ∨
    (filtersGo i v d fs).2 = some (derase "_indicator" d) := by
  induction fs with
  | nil =>
    cases v with
    | none => left; rfl
    | some vv => right; rfl
  | cons f rest ih =>
    unfold filtersGo
    by_cases hc : (f.conditions.all (fun c => c d)) = true
    · rw [if_pos hc]
      by_cases ha : firstTerminal f.actions = some "accept"
      · rw [if_pos ha]
        cases v with
        | none => left; rfl
        | some vv => right; rfl
      · rw [if_neg ha]
        by_cases hd : firstTerminal f.actions = some "drop"
        · rw [if_pos hd]; left; rfl
        · rw [if_neg hd]; exact ih
    · rw [if_neg (by simpa using hc)]
      exact ih

/-- A record entry surviving `pop('_indicator')` after the `_indicator`
injection was already an entry of the underlying record. -/
theorem mem_derase_dinsert (k val : String) (d : Record) (p : String × String)
    (hp : p ∈ derase k (dinsert k val d)) : p ∈ d := by
  unfold derase dinsert at hp
  rcases List.mem_filter.mp hp with ⟨hmem, hq⟩
  rcases List.mem_cons.mp hmem with h | h
  · subst h; simp at hq
  · exact (List.mem_filter.mp h).1

/-- When the input value's entries carry no `_`-prefixed key, neither do
the entries of the value `_Filters.apply` returns. -/
theorem filtersApply_snd_no_underscore (fs : List Filter) (i : String)
    (v : Option Record)
    (hv : ∀ p ∈ v.getD [], keyUnderscore p.1 = false) :
    ∀ w, (filtersApply fs i v).2 = some w →
      ∀ p ∈ w, keyUnderscore p.1 = false := by
  intro w hw p hp
  simp only [filtersApply] at hw
  rcases filtersGo_snd fs i v (dinsert "_indicator" i (v.getD [])) with h | h
  · rw [hw] at h; exact absurd h (by simp)
  · rw [hw] at h
    have hweq : w = derase "_indicator" (dinsert "_indicator" i (v.getD [])) :=
      Option.some.inj h
    subst hweq
    exact hv p (mem_derase_dinsert _ _ _ _ hp)

/-- `dropWhile` is the identity when the first element already fails the
predicate. -/
theorem dropWhile_eq_self_of_head (p : Char → Bool) (l : List Char)
    (h : l.head?.all (fun c => !p c) = true) : l.dropWhile p = l := by
  cases l with
  | nil => rfl
  | cons a as =>
    simp only [Option.all, List.head?] at h
    have hp : p a = false := by simpa using h
    simp [List.dropWhile_cons, hp]

/-- Python `str.strip()` is the identity on a string with no leading or
trailing whitespace. -/
theorem pyStrip_eq_self (M : String)
    (h1 : M.data.head?.all (fun c => !isPySpace c) = true)
    (h2 : M.data.getLast?.all (fun c => !isPySpace c) = true) :
    pyStrip M = M := by
  unfold pyStrip
  rw [dropWhile_eq_self_of_head _ _ h1]
  rw [dropWhile_eq_self_of_head _ _ (by rw [List.head?_reverse]; exact h2)]
  rw [List.reverse_reverse]

/-! ### Concrete instances used in closed statements -/

/-- A two-input node mid-barrier: one marker recorded, one pending. -/
def nodeC : Node :=
  { name := "C"
    state := FTState.STARTED
    inputs := ["A", "B"]
    inputs_checkpoint := [("A", "cp-7")]
    last_checkpoint := none
    infilters := []
    outfilters := []
    hasOutput := true }

/-- A node still in READY (data path not yet legal). -/
def nodeReady : Node :=
  { name := "R"
    state := FTState.READY
    inputs := ["a"]
    inputs_checkpoint := []
    last_checkpoint := none
    infilters := []
    outfilters := []
    hasOutput := false }

/-- A stopped node (no operation is legal). -/
def nodeStopped : Node :=
  { name := "S"
    state := FTState.STOPPED
    inputs := ["a"]
    inputs_checkpoint := []
    last_checkpoint := none
    infilters := []
    outfilters := []
    hasOutput := false }

/-- A filter that matches every record and drops it. -/
def dropAllFilter : Filter := { conditions := [], actions := ["drop"] }

/-- A started node whose infilters drop everything. -/
def nodeDrop : Node :=
  { name := "D"
    state := FTState.STARTED
    inputs := ["a"]
    inputs_checkpoint := []
    last_checkpoint := none
    infilters := [dropAllFilter]
    outfilters := []
    hasOutput := true }

/-- A started node with empty filter chains. -/
def nodeStartedU : Node :=
  { name := "U"
    state := FTState.STARTED
    inputs := ["a"]
    inputs_checkpoint := []
    last_checkpoint := none
    infilters := []
    outfilters := []
    hasOutput := true }

/-- A source node (no inputs), not yet started. -/
def nodeSrc : Node :=
  { name := "A"
    state := FTState.READY
    inputs := []
    inputs_checkpoint := []
    last_checkpoint := none
    infilters := []
    outfilters := []
    hasOutput := true }

/-- A transport stub whose `send_rpc` always produces `"result42"`. -/
def comm42 : String → String → Record → String := fun _ _ _ => "result42"

/-! ### Theorems -/

/-- C1: for a non-source node in STARTED or CHECKPOINT whose recorded
markers all equal `m` (the divergence check passes), `checkpoint s m`
records `s ↦ m`; while the map is smaller than the input count the state
becomes CHECKPOINT and nothing is persisted or emitted; exactly when the
map size equals the input count the state becomes IDLE, `m` is written to
the checkpoint file, `last_checkpoint := m`, and a checkpoint is published
on the output iff an output exists.  Emission of the downstream checkpoint
occurs iff exactly `inputs.length` equal markers have been received. -/
theorem checkpoint_barrier_alignment (n : Node) (s m : String)
    (hsrc : n.inputs ≠ [])
    (hst : n.state = FTState.STARTED ∨ n.state = FTState.CHECKPOINT)
    (hdiv : ∀ p ∈ n.inputs_checkpoint, p.2 = m) :
    (n.checkpoint s m).2.2 = none ∧
    (n.checkpoint s m).1.inputs_checkpoint = dinsert s m n.inputs_checkpoint ∧
    ((dinsert s m n.inputs_checkpoint).length < n.inputs.length →
      (n.checkpoint s m).1.state = FTState.CHECKPOINT ∧
      (n.checkpoint s m).2.1 = [] ∧
      (n.checkpoint s m).1.last_checkpoint = n.last_checkpoint) ∧
    ((dinsert s m n.inputs_checkpoint).length = n.inputs.length →
      (n.checkpoint s m).1.state = FTState.IDLE ∧
      (n.checkpoint s m).1.last_checkpoint = some m ∧
      (n.checkpoint s m).2.1 =
        Event.fileWrite (n.name ++ ".chkp") m :: emitCheckpointEvents n m) ∧
    (Event.publishCheckpoint m ∈ (n.checkpoint s m).2.1 ↔
      ((dinsert s m n.inputs_checkpoint).length = n.inputs.length ∧
        n.hasOutput = true)) := by
  have hany : n.inputs_checkpoint.any (fun p => p.2 ≠ m) = false := by
    rw [List.any_eq_false]
    intro p hp
    simpa using hdiv p hp
  unfold Node.checkpoint
  rw [if_neg (not_not_intro hst), if_neg (by rw [hany]; decide)]
  by_cases hlen : (dinsert s m n.inputs_checkpoint).length = n.inputs.length
  · rw [if_neg (not_not_intro hlen)]
    refine ⟨rfl, rfl, ?_, ?_, ?_⟩
    · intro hlt; omega
    · intro _; exact ⟨rfl, rfl, rfl⟩
    · unfold emitCheckpointEvents
      cases h : n.hasOutput <;> simp [hlen]
  · rw [if_pos hlen]
    refine ⟨rfl, rfl, ?_, ?_, ?_⟩
    · intro _; exact ⟨rfl, rfl, rfl⟩
    · intro h; exact absurd h hlen
    · simp [hlen]

/-- Witness for C1 at a concrete input: `nodeC` has inputs `[A, B]` and
marker `cp-7` recorded from `A`; the checkpoint from `B` completes the
barrier. -/
theorem checkpoint_barrier_alignment_witness :
    (nodeC.checkpoint "B" "cp-7").1.state = FTState.IDLE ∧
    (nodeC.checkpoint "B" "cp-7").1.last_checkpoint = some "cp-7" ∧
    Event.publishCheckpoint "cp-7" ∈ (nodeC.checkpoint "B" "cp-7").2.1 := by
  have h := checkpoint_barrier_alignment nodeC "B" "cp-7" (by decide)
    (Or.inl rfl) (by decide)
  have hc := h.2.2.2.1 (by decide)
  exact ⟨hc.1, hc.2.1, h.2.2.2.2.mpr ⟨by decide, rfl⟩⟩

/-- C2: in STARTED or CHECKPOINT, `checkpoint(source, m)` raises the fatal
divergence error iff the inputs-checkpoint map already holds a marker
different from `m`; and when it raises, the node (state, map,
`last_checkpoint`) is unchanged and nothing is emitted or persisted. -/
theorem checkpoint_divergence_fatal (n : Node) (s m : String)
    (hst : n.state = FTState.STARTED ∨ n.state = FTState.CHECKPOINT) :
    ((n.checkpoint s m).2.2 ≠ none ↔ ∃ p ∈ n.inputs_checkpoint, p.2 ≠ m) ∧
    ((∃ p ∈ n.inputs_checkpoint, p.2 ≠ m) →
      (n.checkpoint s m).2.2 = some "different checkpoint value received" ∧
      (n.checkpoint s m).1 = n ∧
      (n.checkpoint s m).2.1 = []) := by
  unfold Node.checkpoint
  rw [if_neg (not_not_intro hst)]
  by_cases hdiv : ∃ p ∈ n.inputs_checkpoint, p.2 ≠ m
  · have hany : n.inputs_checkpoint.any (fun p => p.2 ≠ m) = true := by
      rw [List.any_eq_true]
      obtain ⟨p, hp, hne⟩ := hdiv
      exact ⟨p, hp, by simpa using hne⟩
    rw [if_pos hany]
    exact ⟨by simp [hdiv], fun _ => ⟨rfl, rfl, rfl⟩⟩
  · have hany : n.inputs_checkpoint.any (fun p => p.2 ≠ m) = false := by
      rw [List.any_eq_false]
      intro p hp
      simp only [decide_eq_true_eq]
      intro hne
      exact hdiv ⟨p, hp, hne⟩
    rw [if_neg (by rw [hany]; decide)]
    constructor
    · constructor
      · intro herr
        exfalso
        by_cases hlen :
            (dinsert s m n.inputs_checkpoint).length = n.inputs.length
        · rw [if_neg (not_not_intro hlen)] at herr; exact herr rfl
        · rw [if_pos hlen] at herr; exact herr rfl
      · intro h; exact absurd h hdiv
    · intro h; exact absurd h hdiv

/-- Witness for C2 at a concrete input: `nodeC` holds `cp-7` from `A`;
a checkpoint with marker `cp-8` from `B` is fatal and changes nothing. -/
theorem checkpoint_divergence_fatal_witness :
    (nodeC.checkpoint "B" "cp-8").2.2 =
        some "different checkpoint value received" ∧
    (nodeC.checkpoint "B" "cp-8").1 = nodeC ∧
    (nodeC.checkpoint "B" "cp-8").2.1 = [] := by
  have h := checkpoint_divergence_fatal nodeC "B" "cp-8" (Or.inl rfl)
  exact h.2 ⟨("A", "cp-7"), by decide, by decide⟩

/-- C3 counterexample: `update` and `withdraw` invoked in READY — a state
where they are not allowed — return silently with no error raised, no
events, and the node unchanged, contradicting the claim that every such
call raises a fatal assertion. -/
theorem update_wrong_state_returns_silently :
    (nodeReady.update "a" "i" none).2.2 = none ∧
    (nodeReady.withdraw "a" "i" none).2.2 = none ∧
    nodeReady.update "a" "i" none = (nodeReady, [], none) := by
  exact ⟨rfl, rfl, rfl⟩

/-- C3 amended: `checkpoint` outside STARTED/CHECKPOINT, `start` outside
INIT, `stop` outside STARTED/IDLE and `connect` outside READY raise fatal
assertion errors and leave the node unchanged; `update` and `withdraw`
outside STARTED/CHECKPOINT instead return silently (no error, no hook, no
emission, node unchanged). -/
theorem state_guard_behavior (n : Node) (s i m : String) (v : Option Record)
    (ins : List String) (out : Bool) :
    (¬ (n.state = FTState.STARTED ∨ n.state = FTState.CHECKPOINT) →
      n.update s i v = (n, [], none) ∧
      n.withdraw s i v = (n, [], none) ∧
      n.checkpoint s m =
        (n, [], some "checkpoint received with state not STARTED or CHECKPOINT")) ∧
    (n.state ≠ FTState.INIT → n.start = (n, some "start on not INIT FT")) ∧
    (¬ (n.state = FTState.IDLE ∨ n.state = FTState.STARTED) →
      n.stop = (n, some "stop on not IDLE or STARTED FT")) ∧
    (n.state ≠ FTState.READY →
      n.connect ins out = (n, some "connect called in non ready FT")) := by
  refine ⟨fun h => ?_, fun h => ?_, fun h => ?_, fun h => ?_⟩
  · unfold Node.update Node.withdraw Node.checkpoint
    rw [if_pos h, if_pos h, if_pos h]
    exact ⟨rfl, rfl, rfl⟩
  · unfold Node.start
    rw [if_neg h]
  · unfold Node.stop
    rw [if_neg h]
  · unfold Node.connect
    rw [if_neg h]

/-- Witness for C3 (amended) at a concrete input: a STOPPED node satisfies
every guard's negation. -/
theorem state_guard_behavior_witness :
    nodeStopped.update "a" "i" none = (nodeStopped, [], none) ∧
    nodeStopped.checkpoint "a" "m" =
      (nodeStopped, [],
        some "checkpoint received with state not STARTED or CHECKPOINT") ∧
    nodeStopped.start = (nodeStopped, some "start on not INIT FT") ∧
    nodeStopped.stop = (nodeStopped, some "stop on not IDLE or STARTED FT") ∧
    nodeStopped.connect ["x"] true =
      (nodeStopped, some "connect called in non ready FT") := by
  have h := state_guard_behavior nodeStopped "a" "i" "m" none ["x"] true
  exact ⟨(h.1 (by decide)).1, (h.1 (by decide)).2.2, h.2.1 (by decide),
    h.2.2.1 (by decide), h.2.2.2 (by decide)⟩

/-- C4: an update in STARTED/CHECKPOINT from a non-checkpointed source
dispatches on the infilter result computed over the underscore-stripped
value: when the filter drops the record (`∅`), exactly one
`filtered_withdraw` with the original indicator and the original stripped
value is invoked and no `filtered_update`; otherwise exactly one
`filtered_update` with the filtered indicator and filtered value and no
`filtered_withdraw`. -/
theorem update_filter_dispatch (n : Node) (s i : String) (v : Option Record)
    (hst : n.state = FTState.STARTED ∨ n.state = FTState.CHECKPOINT)
    (hsrc : dmem s n.inputs_checkpoint = false) :
    ((filtersApply n.infilters i (v.map stripKeys)).1 = none →
      n.update s i v =
        (n, [Event.filteredWithdraw s i (v.map stripKeys)], none)) ∧
    (∀ fi fv, filtersApply n.infilters i (v.map stripKeys) = (some fi, fv) →
      n.update s i v = (n, [Event.filteredUpdate s fi fv], none)) := by
  unfold Node.update
  rw [if_neg (not_not_intro hst), if_neg (by rw [hsrc]; decide)]
  constructor
  · intro hnone
    rcases hres : filtersApply n.infilters i (v.map stripKeys) with ⟨fi, fv⟩
    rw [hres] at hnone
    simp only at hnone
    subst hnone
    rfl
  · intro fi fv heq
    rw [heq]

/-- Witness for C4 at a concrete input: `nodeDrop`'s infilters drop every
record, so the update re-enters as a withdraw of the original stripped
value. -/
theorem update_filter_dispatch_witness :
    nodeDrop.update "a" "x" none =
      (nodeDrop, [Event.filteredWithdraw "a" "x" none], none) := by
  have h := update_filter_dispatch nodeDrop "a" "x" none (Or.inl rfl) rfl
  simpa using h.1 rfl

/-- C6: an update or withdraw delivered outside STARTED/CHECKPOINT invokes
no subclass hook, publishes nothing, raises nothing, and leaves the node —
state, inputs-checkpoint map, `last_checkpoint` — unchanged. -/
theorem datapath_wrong_state_noop (n : Node) (s i : String) (v : Option Record)
    (hst : ¬ (n.state = FTState.STARTED ∨ n.state = FTState.CHECKPOINT)) :
    n.update s i v = (n, [], none) ∧ n.withdraw s i v = (n, [], none) := by
  unfold Node.update Node.withdraw
  rw [if_pos hst, if_pos hst]
  exact ⟨rfl, rfl⟩

/-- Witness for C6 at a concrete input: a READY node ignores the data
path. -/
theorem datapath_wrong_state_noop_witness :
    nodeReady.update "a" "i" (some [("k", "v")]) = (nodeReady, [], none) ∧
    nodeReady.withdraw "a" "i" (some [("k", "v")]) = (nodeReady, [], none) :=
  datapath_wrong_state_noop nodeReady "a" "i" (some [("k", "v")]) (by decide)

/-- C5: for an update or withdraw processed in STARTED/CHECKPOINT from a
non-checkpointed source, every value a subclass hook (`filtered_update`
or `filtered_withdraw`) receives contains no attribute whose name begins
with an underscore — in particular the synthetic `_indicator` key injected
during filter evaluation is gone. -/
theorem hooks_see_no_underscore (n : Node) (s i : String) (v : Option Record)
    (hst : n.state = FTState.STARTED ∨ n.state = FTState.CHECKPOINT)
    (hsrc : dmem s n.inputs_checkpoint = false) :
    (∀ s2 i2 w,
      (Event.filteredUpdate s2 i2 (some w) ∈ (n.update s i v).2.1 ∨
        Event.filteredWithdraw s2 i2 (some w) ∈ (n.update s i v).2.1) →
      ∀ p ∈ w, keyUnderscore p.1 = false) ∧
    (∀ s2 i2 w,
      Event.filteredWithdraw s2 i2 (some w) ∈ (n.withdraw s i v).2.1 →
      ∀ p ∈ w, keyUnderscore p.1 = false) := by
  constructor
  · intro s2 i2 w hmem
    unfold Node.update at hmem
    rw [if_neg (not_not_intro hst), if_neg (by rw [hsrc]; decide)] at hmem
    rcases hres : filtersApply n.infilters i (v.map stripKeys) with ⟨fi, fv⟩
    rw [hres] at hmem
    cases fi with
    | none =>
      rcases hmem with hmem | hmem
      · simp at hmem
      · have hev := List.mem_singleton.mp hmem
        have hval : some w = v.map stripKeys := by
          injection hev with h1 h2 h3
        have hw : (v.map stripKeys).getD [] = w := by
          rw [← hval]; rfl
        intro p hp
        exact stripKeysOpt_no_underscore v p (by rw [hw]; exact hp)
    | some fi' =>
      rcases hmem with hmem | hmem
      · have hev := List.mem_singleton.mp hmem
        have hval : some w = fv := by
          injection hev with h1 h2 h3
        exact filtersApply_snd_no_underscore n.infilters i (v.map stripKeys)
          (stripKeysOpt_no_underscore v) w (by rw [hres, ← hval])
      · simp at hmem
  · intro s2 i2 w hmem
    unfold Node.withdraw at hmem
    rw [if_neg (not_not_intro hst), if_neg (by rw [hsrc]; decide)] at hmem
    have hev := List.mem_singleton.mp hmem
    have hval : some w = v.map stripKeys := by
      injection hev with h1 h2 h3
    have hw : (v.map stripKeys).getD [] = w := by
      rw [← hval]; rfl
    intro p hp
    exact stripKeysOpt_no_underscore v p (by rw [hw]; exact hp)

/-- Witness for C5 at a concrete input: an incoming value with a `_meta`
key; the hook event carries a value stripped of it. -/
theorem hooks_see_no_underscore_witness :
    Event.filteredWithdraw "a" "x" (some [("score", "5")]) ∈
      (nodeStartedU.withdraw "a" "x"
        (some [("_meta", "1"), ("score", "5")])).2.1 ∧
    (∀ p ∈ [("score", "5")], keyUnderscore (p : String × String).1 = false) := by
  have h := hooks_see_no_underscore nodeStartedU "a" "x"
    (some [("_meta", "1"), ("score", "5")]) (Or.inl rfl) rfl
  refine ⟨?_, fun p hp => h.2 "a" "x" [("score", "5")] ?_ p hp⟩
  · decide
  · decide

/-- C7: storing a whitespace-free marker `M` with `create_checkpoint` and
then constructing a node of the same name (which runs `read_checkpoint`)
yields `last_checkpoint = M` with the on-disk file removed, so
`state_info()` reports `checkpoint = M`; and with no checkpoint file,
`read_checkpoint` leaves `last_checkpoint` absent without error. -/
theorem checkpoint_store_roundtrip (nm M : String) (fs : FS)
    (h1 : M.data.head?.all (fun c => !isPySpace c) = true)
    (h2 : M.data.getLast?.all (fun c => !isPySpace c) = true) :
    (read_checkpoint nm (create_checkpoint nm M fs)).1 = some M ∧
    (read_checkpoint nm (create_checkpoint nm M fs)).2 (nm ++ ".chkp") = none ∧
    (∀ fil fol,
      (Node.construct nm fil fol (create_checkpoint nm M fs)).1.mgmtbus_state_info.checkpoint
        = some M) ∧
    (fs (nm ++ ".chkp") = none → read_checkpoint nm fs = (none, fs)) := by
  have hread : read_checkpoint nm (create_checkpoint nm M fs) =
      (some (pyStrip M),
       fun f => if f = nm ++ ".chkp" then none else create_checkpoint nm M fs f) := by
    unfold read_checkpoint create_checkpoint
    simp
  refine ⟨?_, ?_, ?_, ?_⟩
  · rw [hread, pyStrip_eq_self M h1 h2]
  · rw [hread]
    simp
  · intro fil fol
    unfold Node.construct Node.mgmtbus_state_info
    simp only
    rw [hread]
    simp only
    rw [pyStrip_eq_self M h1 h2]
  · intro hmiss
    unfold read_checkpoint
    rw [hmiss]

/-- Witness for C7 at a concrete input: marker `cp-3`, empty file
system. -/
theorem checkpoint_store_roundtrip_witness :
    (read_checkpoint "N" (create_checkpoint "N" "cp-3" (fun _ => none))).1 =
      some "cp-3" ∧
    (read_checkpoint "N" (create_checkpoint "N" "cp-3" (fun _ => none))).2
      ("N" ++ ".chkp") = none ∧
    (Node.construct "N" [] [] (create_checkpoint "N" "cp-3"
      (fun _ => none))).1.mgmtbus_state_info.checkpoint = some "cp-3" := by
  have h := checkpoint_store_roundtrip "N" "cp-3" (fun _ => none)
    (by decide) (by decide)
  exact ⟨h.1, h.2.1, h.2.2.1 [] []⟩

/-- C8 counterexample: a node holding marker `cp-7` from input `A`; after
`mgmtbus_reset()` (and `mgmtbus_rebuild()`) the inputs-checkpoint map
still holds it — it is not cleared, contradicting the claim. -/
theorem reset_does_not_clear_map :
    (nodeC.mgmtbus_reset).1.inputs_checkpoint = [("A", "cp-7")] ∧
    (nodeC.mgmtbus_rebuild).1.inputs_checkpoint = [("A", "cp-7")] ∧
    ([("A", "cp-7")] : Record) ≠ [] := by
  refine ⟨rfl, rfl, by decide⟩

/-- C8 amended: `mgmtbus_reset()` and `mgmtbus_rebuild()` leave the
inputs-checkpoint map unchanged (in `BaseFT` the reset/rebuild hooks are
no-ops); the map is cleared by `connect()`, on the READY → CONNECTED
transition. -/
theorem reset_rebuild_preserve_map (n : Node) (ins : List String) (out : Bool) :
    (n.mgmtbus_reset).1.inputs_checkpoint = n.inputs_checkpoint ∧
    (n.mgmtbus_rebuild).1.inputs_checkpoint = n.inputs_checkpoint ∧
    (n.state = FTState.READY → (n.connect ins out).1.inputs_checkpoint = []) := by
  refine ⟨rfl, rfl, fun h => ?_⟩
  unfold Node.connect
  rw [if_pos h]

/-- Witness for C8 (amended) at a concrete input. -/
theorem reset_rebuild_preserve_map_witness :
    (nodeC.mgmtbus_reset).1.inputs_checkpoint = nodeC.inputs_checkpoint ∧
    (nodeReady.connect ["x"] true).1.inputs_checkpoint = [] := by
  have h1 := reset_rebuild_preserve_map nodeC ["x"] true
  have h2 := reset_rebuild_preserve_map nodeReady ["x"] true
  exact ⟨h1.1, h2.2.2 rfl⟩

/-- C9: evaluated at a blocking call whose transport produces
`"result42"`, `Fabric.send_rpc` returns `None` — its body calls
`comm.send_rpc` but has no `return` statement — so the transport's result
is discarded and `do_rpc` hands `None` to its caller, contradicting the
claim that the transport's result is returned. -/
theorem fabric_send_rpc_drops_result :
    (Fabric.send_rpc comm42 "a" "b" "get" []).2.2 = "result42" ∧
    (Fabric.send_rpc comm42 "a" "b" "get" []).1 = none ∧
    nodeReady.do_rpc comm42 "b" "get" [] = none ∧
    (none : Option String) ≠ some "result42" := by
  exact ⟨rfl, rfl, rfl, by decide⟩

/-- C10: `mgmtbus_checkpoint` checks no state precondition: a node with a
non-empty inputs list gets `ignored` and is untouched in every state; a
source node (empty inputs), in any state whatsoever, is unconditionally
moved to IDLE, the marker is written to the checkpoint file,
`last_checkpoint` is set, a downstream checkpoint is emitted (when an
output exists) and `OK` is returned. -/
theorem mgmtbus_checkpoint_unconditional (n : Node) (m : String) :
    (n.inputs ≠ [] → n.mgmtbus_checkpoint m = (n, [], "ignored")) ∧
    (n.inputs = [] →
      n.mgmtbus_checkpoint m =
        ({ n with state := FTState.IDLE, last_checkpoint := some m },
         Event.fileWrite (n.name ++ ".chkp") m :: emitCheckpointEvents n m,
         "OK")) := by
  constructor
  · intro h
    unfold Node.mgmtbus_checkpoint
    rw [if_pos (by simpa using h)]
  · intro h
    unfold Node.mgmtbus_checkpoint
    rw [if_neg (by simp [h])]

/-- Witness for C10 at concrete inputs: a READY source node (not
STARTED) completes the management checkpoint; a two-input node is
ignored. -/
theorem mgmtbus_checkpoint_unconditional_witness :
    nodeSrc.mgmtbus_checkpoint "cp-1" =
      ({ nodeSrc with state := FTState.IDLE, last_checkpoint := some "cp-1" },
       [Event.fileWrite ("A" ++ ".chkp") "cp-1", Event.publishCheckpoint "cp-1"],
       "OK") ∧
    nodeC.mgmtbus_checkpoint "cp-1" = (nodeC, [], "ignored") := by
  have h1 := mgmtbus_checkpoint_unconditional nodeSrc "cp-1"
  have h2 := mgmtbus_checkpoint_unconditional nodeC "cp-1"
  exact ⟨h1.2 rfl, h2.1 (by decide)⟩

end Minemeld
